import Mathlib

/-!
Shallow embedding of the OpenSourceHub backend (FastAPI service in
`backend/main.py`, `backend/models.py`, `backend/agents/open_source_mentor.py`)
and proofs about its catalog loading, difficulty filtering, email
subscription, chat endpoint and mentor-agent behaviour.

Conventions of the embedding:
* A Python dict loaded from JSON and passed to `Program(**p)` is modelled as
  `RawProgram`, a record of `Option` fields (a `none` field means the key is
  absent from the dict).  Pydantic validation (`Program(**p)`) is `toProgram`:
  it fails (`none`) exactly when a required field (one without a default in
  `models.py`) is missing.
* Python exceptions escaping a handler are modelled with `Option`/explicit
  outcome types; `none` means an uncaught error.
* `str.strip()` / `str.lower()` are modelled on ASCII whitespace/letters,
  which is all the relevant inputs use.
-/

namespace OpenSourceHub

/-- `Program` from `backend/models.py`: fields without a default are
`id, name, slug, difficulty, timeline, deadline, description, official_site`;
`program_type` defaults to "Open Source", `opens_in` to "", `tags` to `[]`. -/
structure Program where
  id : Int
  name : String
  slug : String
  difficulty : String
  program_type : String
  timeline : String
  opens_in : String
  deadline : String
  description : String
  official_site : String
  tags : List String
deriving DecidableEq, Repr

/-- A raw JSON record (Python dict) as read from `programs.json`: every field
may be absent. -/
structure RawProgram where
  id : Option Int := none
  name : Option String := none
  slug : Option String := none
  difficulty : Option String := none
  program_type : Option String := none
  timeline : Option String := none
  opens_in : Option String := none
  deadline : Option String := none
  description : Option String := none
  official_site : Option String := none
  tags : Option (List String) := none
deriving DecidableEq, Repr

/-- Pydantic validation `Program(**p)`: required fields must be present,
fields with defaults fall back to their `models.py` defaults. -/
def toProgram (r : RawProgram) : Option Program :=
  match r.id, r.name, r.slug, r.difficulty, r.timeline, r.deadline,
      r.description, r.official_site with
  | some id, some name, some slug, some difficulty, some timeline,
      some deadline, some description, some official_site =>
    some { id := id, name := name, slug := slug, difficulty := difficulty,
           program_type := r.program_type.getD "Open Source",
           timeline := timeline, opens_in := r.opens_in.getD "",
           deadline := deadline, description := description,
           official_site := official_site, tags := r.tags.getD [] }
  | _, _, _, _, _, _, _, _ => none

/-- The raw record holding exactly the fields of a validated `Program`
(every key present). -/
def rawOfProgram (p : Program) : RawProgram :=
  { id := some p.id, name := some p.name, slug := some p.slug,
    difficulty := some p.difficulty, program_type := some p.program_type,
    timeline := some p.timeline, opens_in := some p.opens_in,
    deadline := some p.deadline, description := some p.description,
    official_site := some p.official_site, tags := some p.tags }

/-! ## Python string primitives -/

/-- ASCII whitespace as stripped by Python `str.strip()`. -/
def isPySpace (c : Char) : Bool :=
  c = ' ' || c = '\t' || c = '\n' || c = '\x0d' || c = '\x0b' || c = '\x0c'

/-- Python `str.strip()` (ASCII whitespace). -/
def pyStrip (s : String) : String :=
  ⟨(((s.toList.dropWhile isPySpace).reverse.dropWhile isPySpace).reverse)⟩

/-- ASCII lowering of one character, as Python `str.lower()` does on the
ASCII range (all difficulty values in play are ASCII). -/
def pyLowerChar (c : Char) : Char :=
  if 'A' ≤ c ∧ c ≤ 'Z' then Char.ofNat (c.toNat + 32) else c

/-- Python `str.lower()` (ASCII). -/
def pyLower (s : String) : String :=
  ⟨s.toList.map pyLowerChar⟩

/-- `pre` occurs at the start of `s` (character-exact). -/
def strStartsWith (s pre : String) : Bool :=
  pre.toList.isPrefixOf s.toList

/-- Naive substring occurrence check on character lists. -/
def listContainsSub (pat : List Char) : List Char → Bool
  | [] => pat.isEmpty
  | c :: rest => pat.isPrefixOf (c :: rest) || listContainsSub pat rest

/-- `pat` occurs somewhere inside `s` (character-exact). -/
def strContains (s pat : String) : Bool :=
  listContainsSub pat.toList s.toList

/-! ## Catalog loader (`load_programs` in `backend/main.py`, lines 25-78) -/

/-- Observable state of a JSON file on disk: absent, present but failing to
read/parse (`json.JSONDecodeError` / `IOError`), or parsed to a JSON array. -/
inductive FileState where
  | absent
  | unreadable
  | parsed (data : List RawProgram)
deriving DecidableEq, Repr

/-- The hardcoded 2-entry literal fallback in `load_programs`. -/
def fallbackPrograms : List RawProgram :=
  [ { id := some 1,
      name := some "Google Summer of Code (GSoC)",
      slug := some "gsoc",
      difficulty := some "intermediate",
      program_type := some "Internship",
      timeline := some "Applications Feb–Apr, coding May–Aug (varies by year)",
      opens_in := some "March",
      deadline := some "April 2, 2025",
      description := some "Work with open source organizations on a 3-month programming project during your summer break.",
      official_site := some "https://summerofcode.withgoogle.com/",
      tags := some ["Paid", "Remote", "Global"] },
    { id := some 4,
      name := some "Hacktoberfest",
      slug := some "hacktoberfest",
      difficulty := some "intermediate",
      program_type := some "Open Source",
      timeline := some "October 1–31 every year",
      opens_in := some "October",
      deadline := some "October 31",
      description := some "Month-long celebration of open source focused on submitting pull requests to participating repositories.",
      official_site := some "https://hacktoberfest.com/",
      tags := some ["Remote", "Global"] } ]

/-- `load_programs()`: primary file is used only when it parses to a
non-empty list (`if data and len(data) > 0`); otherwise the frontend cache is
used whenever it parses at all — with NO non-emptiness check (lines 40-45);
otherwise the literal fallback is returned. -/
def load_programs (primary cache : FileState) : List RawProgram :=
  match primary with
  | .parsed data =>
    if data.length > 0 then data else
      match cache with
      | .parsed cdata => cdata
      | _ => fallbackPrograms
  | _ =>
    match cache with
    | .parsed cdata => cdata
    | _ => fallbackPrograms

/-! ## Difficulty filtering (`get_programs`, lines 97-109) -/

/-- The list comprehension `[Program(**p) for p in programs_data]`:
converts every record, the first validation failure aborts the request. -/
def validateAll : List RawProgram → Option (List Program)
  | [] => some []
  | r :: rs =>
    match toProgram r with
    | none => none
    | some p => (validateAll rs).map (p :: ·)

/-- The comprehension
`[Program(**p) for p in programs_data if p.get("difficulty") == difficulty]`
(line 106): a record is converted only when its (possibly absent) `difficulty`
equals the already-lowercased filter; `p.get` on a missing key yields `None`,
which simply fails the comparison. -/
def filterValidate (dl : String) : List RawProgram → Option (List Program)
  | [] => some []
  | r :: rs =>
    if r.difficulty = some dl then
      match toProgram r with
      | none => none
      | some p => (filterValidate dl rs).map (p :: ·)
    else filterValidate dl rs

/-- `GET /programs` handler: `if difficulty:` (Python truthiness — `None` and
`""` both skip the filter), then `difficulty = difficulty.lower()` and the
filtering comprehension. -/
def get_programs (difficulty : Option String) (programs_data : List RawProgram) :
    Option (List Program) :=
  match difficulty with
  | some d => if d = "" then validateAll programs_data
              else filterValidate (pyLower d) programs_data
  | none => validateAll programs_data

/-! ## Email subscription (`subscribe_email`, lines 116-122) -/

/-- `POST /subscribe-email`: membership test on the global
`SUBSCRIBED_EMAILS` list, append when absent.  Email syntax validation
(`EmailStr`) happens in the framework before this handler runs. -/
def subscribe_email (emails : List String) (email : String) :
    String × List String :=
  if email ∈ emails then ("already_subscribed", emails)
  else ("subscribed", emails ++ [email])

/-! ## Mentor agent (`backend/agents/open_source_mentor.py`) -/

/-- One context line (line 35):
`f"- {p['name']}: {p['description']} (Difficulty: {p['difficulty']}, Type: {p['program_type']}, Deadline: {p['deadline']})"`. -/
def formatProgramLine (p : Program) : String :=
  "- " ++ p.name ++ ": " ++ p.description ++ " (Difficulty: " ++ p.difficulty
    ++ ", Type: " ++ p.program_type ++ ", Deadline: " ++ p.deadline ++ ")"

/-- The context block (lines 34-37): newline-join of the first 8 formatted
catalog entries (`programs[:8]`, original order). -/
def programsContext (programs : List Program) : String :=
  String.intercalate "\n" ((programs.take 8).map formatProgramLine)

/-- Text of the f-string prompt (lines 39-63) before the
`{programs_context}` hole.  The triple-quoted literal opens with a newline
and indents every non-blank line by 8 spaces. -/
def promptPre : String :=
  "\n        You are an Open Source Contribution Mentor. You ONLY help with:\n"
  ++ "\n"
  ++ "        1. **Open Source Programs**: Recommend programs from our database\n"
  ++ "        2. **Contribution Process**: How to contribute (Git workflow, pull requests, commits, merges)\n"
  ++ "        3. **Getting Started**: How to begin with open source\n"
  ++ "\n"
  ++ "        **STRICT RULES:**\n"
  ++ "        - ONLY answer questions about open source programs and contributions\n"
  ++ "        - If asked about anything else (coding, tech stacks, careers, etc.), politely redirect to open source topics\n"
  ++ "        - Focus on practical contribution steps: fork → clone → branch → commit → pull request → merge\n"
  ++ "        - Be helpful, encouraging, and stay on topic\n"
  ++ "\n"
  ++ "        **Available Programs:**\n"
  ++ "        "

/-- Prompt text between the `{programs_context}` and `{message}` holes. -/
def promptMid : String :=
  "\n\n        **User Question:** "

/-- Prompt text after the `{message}` hole. -/
def promptPost : String :=
  "\n\n        **Response Guidelines:**\n"
  ++ "        - Keep answers focused and practical\n"
  ++ "        - If they ask about contributing, explain the Git workflow clearly\n"
  ++ "        - If they ask about programs, recommend from our list\n"
  ++ "        - If off-topic, gently redirect to open source contributions\n"
  ++ "        - Be concise but helpful\n"
  ++ "        "

/-- The full prompt sent to `model.generate_content` for a given message and
catalog. -/
def mentorPrompt (message : String) (programs : List Program) : String :=
  promptPre ++ programsContext programs ++ promptMid ++ message ++ promptPost

/-- The `contribution_help` triple-quoted literal (lines 70-90), verbatim. -/
def contribution_help : String :=
  "\n        Here\x27s how to contribute to open source projects:\n"
  ++ "\n"
  ++ "        **Git Workflow:**\n"
  ++ "        1. **Fork** the repository on GitHub\n"
  ++ "        2. **Clone** your fork: `git clone your-fork-url`\n"
  ++ "        3. **Create branch**: `git checkout -b feature-name`\n"
  ++ "        4. **Make changes** and test them\n"
  ++ "        5. **Commit**: `git commit -m \"Add feature description\"`\n"
  ++ "        6. **Push**: `git push origin feature-name`\n"
  ++ "        7. **Pull Request**: Create PR on original repository\n"
  ++ "        8. **Merge**: Wait for maintainers to review and merge\n"
  ++ "\n"
  ++ "        **Tips:**\n"
  ++ "        - Start with small issues labeled \"good first issue\"\n"
  ++ "        - Read contribution guidelines in README.md\n"
  ++ "        - Test your changes thoroughly\n"
  ++ "        - Write clear commit messages\n"
  ++ "\n"
  ++ "        What specific part would you like help with?\n"
  ++ "        "

/-- The fallback reply actually returned: `contribution_help.strip()`. -/
def mentorFallback : String := pyStrip contribution_help

/-- Outcome of the external `model.generate_content` call: text on success,
or any raised exception (carried as a description string — the handler never
inspects it). -/
inductive ModelResult where
  | ok (text : String)
  | error (exc : String)
deriving DecidableEq, Repr

/-- `open_source_mentor_agent(message, programs)` (lines 20-91): build the
prompt, invoke the external call, return `response.text.strip()`; on ANY
exception return `contribution_help.strip()`.  The external call is passed in
as a function from the prompt to a `ModelResult`. -/
def open_source_mentor_agent (callModel : String → ModelResult)
    (message : String) (programs : List Program) : String :=
  match callModel (mentorPrompt message programs) with
  | .ok text => pyStrip text
  | .error _ => mentorFallback

/-! ## Chat endpoint (`agent_chat` in `backend/main.py`, lines 125-163) -/

/-- `AgentQuery` from `backend/models.py`. -/
structure AgentQuery where
  message : String
  difficulty_filter : Option String := none
deriving DecidableEq, Repr

/-- How a `POST /agent-chat` request terminates.  `badRequest` is the
explicit `HTTPException(status_code=400)`; `attributeError` is the uncaught
`AttributeError` raised at line 144 — `open_source_mentor_agent` is a plain
(async) function and has no `.execute` attribute, so attribute lookup fails
before any model call and the framework turns it into a server error. -/
inductive ChatOutcome where
  | badRequest
  | attributeError
deriving DecidableEq, Repr

/-- Result of one `agent_chat` invocation: the outcome, whether the external
model was ever called, and the subscriber list afterwards. -/
structure ChatStep where
  outcome : ChatOutcome
  modelCalled : Bool
  emails : List String
deriving DecidableEq, Repr

/-- `agent_chat(query)`: reject blank messages with 400
(`if not query.message.strip()`), then evaluate
`open_source_mentor_agent.execute(payload)` — which raises `AttributeError`
unconditionally, so lines 147-163 (reply extraction and the
`suggested_programs` filter) are dead code.  The handler never touches
`SUBSCRIBED_EMAILS`. -/
def agent_chat (emails : List String) (query : AgentQuery) : ChatStep :=
  if pyStrip query.message = "" then
    { outcome := .badRequest, modelCalled := false, emails := emails }
  else
    { outcome := .attributeError, modelCalled := false, emails := emails }

/-- The `suggested_programs` computation of lines 150-158 (dead code, kept as
written): `if query.difficulty_filter:` then
`[Program(**p) for p in programs_data if p["difficulty"] == query.difficulty_filter.lower()]`.
Unlike `get_programs` it subscripts `p["difficulty"]`, so a record lacking
the key raises `KeyError`. -/
def filterValidateStrict (dl : String) : List RawProgram → Option (List Program)
  | [] => some []
  | r :: rs =>
    match r.difficulty with
    | none => none
    | some pd =>
      if pd = dl then
        match toProgram r with
        | none => none
        | some p => (filterValidateStrict dl rs).map (p :: ·)
      else filterValidateStrict dl rs

/-- The full `suggested_programs` expression of `agent_chat`. -/
def suggested_programs (difficulty_filter : Option String)
    (programs_data : List RawProgram) : Option (List Program) :=
  match difficulty_filter with
  | some d => if d = "" then validateAll programs_data
              else filterValidateStrict (pyLower d) programs_data
  | none => validateAll programs_data

/-! ## Auxiliary definitions for concrete test data and spec-side readings -/

/-- Number of (possibly overlapping) occurrences of `pat` in a char list. -/
def listCountSub (pat : List Char) : List Char → Nat
  | [] => 0
  | c :: rest =>
    (if pat.isPrefixOf (c :: rest) then 1 else 0) + listCountSub pat rest

/-- Number of occurrences of `pat` inside `s`. -/
def strCountSub (s pat : String) : Nat :=
  listCountSub pat.toList s.toList

/-- Spec-side reading of the difficulty filter (claim C2): case-insensitive
comparison on BOTH sides — each record difficulty and the query are lowered
before the exact match. -/
def filterCaseInsensitiveSpec (C : List Program) (d : String) : List Program :=
  C.filter (fun p => pyLower p.difficulty == pyLower d)

/-- A sample valid program whose stored difficulty is lowercase. -/
def sampleBeginner : Program :=
  { id := 2, name := "Sample Project", slug := "sample-project",
    difficulty := "beginner", program_type := "Open Source",
    timeline := "All year", opens_in := "", deadline := "Dec 31",
    description := "A sample", official_site := "https://example.org",
    tags := [] }

/-- A sample valid program whose stored difficulty carries an uppercase
letter. -/
def sampleUpper : Program :=
  { id := 3, name := "Upper Project", slug := "upper-project",
    difficulty := "Beginner", program_type := "Open Source",
    timeline := "All year", opens_in := "", deadline := "Dec 31",
    description := "Another sample", official_site := "https://example.org",
    tags := [] }

/-- A malformed raw record: has a difficulty key but is missing every
required field, so `Program(**p)` would raise a validation error. -/
def badRecord : RawProgram := { difficulty := some "advanced" }

/-- A raw record with no keys at all — in particular no difficulty key. -/
def keylessRecord : RawProgram := {}

/-! # Theorems -/

set_option maxRecDepth 100000

theorem toProgram_rawOfProgram (p : Program) :
    toProgram (rawOfProgram p) = some p := rfl

theorem validateAll_map_raw (ps : List Program) :
    validateAll (ps.map rawOfProgram) = some ps := by
  induction ps with
  | nil => rfl
  | cons p ps ih => simp [validateAll, toProgram_rawOfProgram, ih]

theorem filterValidate_map_raw (dl : String) (ps : List Program) :
    filterValidate dl (ps.map rawOfProgram) =
      some (ps.filter (fun p => p.difficulty == dl)) := by
  induction ps with
  | nil => rfl
  | cons p ps ih =>
    have hp : toProgram (rawOfProgram p) = some p := toProgram_rawOfProgram p
    have hdiff : (rawOfProgram p).difficulty = some p.difficulty := rfl
    by_cases h : p.difficulty = dl
    · simp [List.map_cons, filterValidate, hdiff, h, hp, ih, List.filter_cons]
    · simp [List.map_cons, filterValidate, hdiff, h, ih, List.filter_cons]

theorem filterValidateStrict_map_raw (dl : String) (ps : List Program) :
    filterValidateStrict dl (ps.map rawOfProgram) =
      some (ps.filter (fun p => p.difficulty == dl)) := by
  induction ps with
  | nil => rfl
  | cons p ps ih =>
    have hp : toProgram (rawOfProgram p) = some p := toProgram_rawOfProgram p
    have hdiff : (rawOfProgram p).difficulty = some p.difficulty := rfl
    by_cases h : p.difficulty = dl
    · simp [List.map_cons, filterValidateStrict, hdiff, h, hp, ih,
        List.filter_cons]
    · simp [List.map_cons, filterValidateStrict, hdiff, h, ih, List.filter_cons]

theorem filterValidate_append_nonmatch (dl : String) (data : List RawProgram)
    (m : RawProgram) (h : m.difficulty ≠ some dl) :
    filterValidate dl (data ++ [m]) = filterValidate dl data := by
  induction data with
  | nil => simp [filterValidate, h]
  | cons r rs ih =>
    by_cases hr : r.difficulty = some dl
    · cases htr : toProgram r <;> simp [filterValidate, hr, htr, ih]
    · simp [filterValidate, hr, ih]

theorem validateAll_append_invalid (data : List RawProgram) (m : RawProgram)
    (h : toProgram m = none) :
    validateAll (data ++ [m]) = none := by
  induction data with
  | nil => simp [validateAll, h]
  | cons r rs ih => cases htr : toProgram r <;> simp [validateAll, htr, ih]

/-- C1: the claim says that for a non-empty chat message, a failing external
model call still yields a 200 response carrying the fallback reply and the
normally filtered `suggested_programs`.  The code cannot do this: line 144 of
`main.py` evaluates `open_source_mentor_agent.execute(payload)`, but
`open_source_mentor_agent` is a plain (async) function with no `execute`
attribute, so every non-blank request dies with an uncaught `AttributeError`
(a server error), before any model call and before the fallback or the
filter can run.  This theorem evaluates the handler at the concrete failing
input `\x7b"message": "How do I start?"\x7d`. -/
theorem C1_agent_chat_raises_attribute_error :
    agent_chat [] { message := "How do I start?", difficulty_filter := none } =
      { outcome := ChatOutcome.attributeError, modelCalled := false,
        emails := [] } := by decide

/-- C2 (counterexample): the claim promises case-insensitive matching on BOTH
sides.  For the one-record catalog whose stored difficulty is "Beginner" and
the query "Beginner", a both-sides case-insensitive filter keeps the record,
but `get_programs` (which lowercases only the query, then compares exactly)
returns the empty list; the dead-code `suggested_programs` filter of
`agent_chat` behaves the same way. -/
theorem C2_counterexample_case_sensitive_record :
    filterCaseInsensitiveSpec [sampleUpper] "Beginner" = [sampleUpper] ∧
    get_programs (some "Beginner") [rawOfProgram sampleUpper] = some [] ∧
    suggested_programs (some "Beginner") [rawOfProgram sampleUpper] =
      some [] := by
  refine ⟨by decide, by decide, by decide⟩

/-- C2 (amended): for every catalog of valid records and non-empty difficulty
query `d`, the filter lowercases ONLY the query and compares it for exact
(case-sensitive) equality with each stored difficulty field, keeping order;
this is the behaviour of both the `GET /programs` filter and the
`suggested_programs` expression of `POST /agent-chat`. -/
theorem C2_filter_lowers_query_only (ps : List Program) (d : String)
    (hd : d ≠ "") :
    get_programs (some d) (ps.map rawOfProgram) =
      some (ps.filter (fun p => p.difficulty == pyLower d)) ∧
    suggested_programs (some d) (ps.map rawOfProgram) =
      some (ps.filter (fun p => p.difficulty == pyLower d)) := by
  constructor
  · simp [get_programs, hd, filterValidate_map_raw]
  · simp [suggested_programs, hd, filterValidateStrict_map_raw]

/-- C2 (witness): the amended theorem at the catalog `[sampleBeginner]` and
the query "BEGINNER". -/
theorem C2_filter_lowers_query_only_witness :
    ("BEGINNER" ≠ "") ∧
    (get_programs (some "BEGINNER") ([sampleBeginner].map rawOfProgram) =
      some ([sampleBeginner].filter
        (fun p => p.difficulty == pyLower "BEGINNER")) ∧
     suggested_programs (some "BEGINNER") ([sampleBeginner].map rawOfProgram) =
      some ([sampleBeginner].filter
        (fun p => p.difficulty == pyLower "BEGINNER"))) :=
  ⟨by decide, C2_filter_lowers_query_only [sampleBeginner] "BEGINNER"
    (by decide)⟩

/-- C3 (counterexample): the claim says the loader ALWAYS returns a non-empty
sequence (at least the 2-entry literal fallback).  It does not: when the
primary file is absent and the cache file parses to an empty JSON array, the
cache branch returns the parsed data with no non-emptiness check, so the
loader returns the empty list. -/
theorem C3_counterexample_empty_cache :
    load_programs FileState.absent (FileState.parsed []) =
      ([] : List RawProgram) := rfl

/-- C3 (amended): the loader is total; when both the primary file and the
cache file are absent it returns exactly the two literal entries —
"Google Summer of Code (GSoC)" with id 1 followed by "Hacktoberfest" with
id 4 — and in general its result is non-empty unless it is the verbatim
content of a parsed cache file (which may be empty). -/
theorem C3_loader_fallback :
    load_programs FileState.absent FileState.absent = fallbackPrograms ∧
    (load_programs FileState.absent FileState.absent).map
        (fun r => (r.id, r.name)) =
      [(some 1, some "Google Summer of Code (GSoC)"),
       (some 4, some "Hacktoberfest")] ∧
    ∀ primary cache : FileState,
      0 < (load_programs primary cache).length ∨
      ∃ data, cache = FileState.parsed data ∧
        load_programs primary cache = data := by
  refine ⟨rfl, by decide, ?_⟩
  intro primary cache
  cases primary with
  | parsed data =>
    by_cases h : data.length > 0
    · left; simp [load_programs, h]
    · cases cache with
      | parsed cdata => right; exact ⟨cdata, rfl, by simp [load_programs, h]⟩
      | absent => left; simp [load_programs, h, fallbackPrograms]
      | unreadable => left; simp [load_programs, h, fallbackPrograms]
  | absent =>
    cases cache with
    | parsed cdata => right; exact ⟨cdata, rfl, by simp [load_programs]⟩
    | absent => left; simp [load_programs, fallbackPrograms]
    | unreadable => left; simp [load_programs, fallbackPrograms]
  | unreadable =>
    cases cache with
    | parsed cdata => right; exact ⟨cdata, rfl, by simp [load_programs]⟩
    | absent => left; simp [load_programs, fallbackPrograms]
    | unreadable => left; simp [load_programs, fallbackPrograms]

/-- C4 (counterexample): the claim describes the fallback guide as carrying
"two tips"; the fixed string actually carries FOUR tip bullets (the lines
"- Start with small issues...", "- Read contribution guidelines...",
"- Test your changes...", "- Write clear commit messages").  Counting the
bullet-line marker in the reply returned for a failing call at a concrete
input gives 4, not 2. -/
theorem C4_counterexample_four_tips :
    strCountSub (open_source_mentor_agent
        (fun _ => ModelResult.error "NetworkError") "How do I start?" [])
      "\n        - " ≠ 2 ∧
    strCountSub (open_source_mentor_agent
        (fun _ => ModelResult.error "NetworkError") "How do I start?" [])
      "\n        - " = 4 := by
  refine ⟨by decide, by decide⟩

/-- C4 (amended): for every message, catalog and exception raised by the
external text-generation call, the mentor returns the one fixed multi-step
Git contribution-guide string (fork/clone/branch/commit/push/PR/merge plus
FOUR tips and a closing question), identical regardless of the failure cause
and of the message, and that string starts with the literal text
"Here\x27s how to contribute to open source projects:". -/
theorem C4_fallback_on_any_exception (message : String)
    (programs : List Program) (exc : String) :
    open_source_mentor_agent (fun _ => ModelResult.error exc)
        message programs = mentorFallback ∧
    strStartsWith mentorFallback
      "Here\x27s how to contribute to open source projects:" = true ∧
    strContains mentorFallback "6. **Push**" = true ∧
    strCountSub mentorFallback "\n        - " = 4 ∧
    strContains mentorFallback
      "What specific part would you like help with?" = true :=
  ⟨rfl, by decide, by decide, by decide, by decide⟩

/-- C5 (counterexample): the claim says the prompt instructs the workflow
sequence fork → clone → branch → commit → push → pull-request → merge.  The
prompt built for the concrete message "How do I start?" and the empty catalog
contains no occurrence of "push" at all: its workflow line reads
"fork → clone → branch → commit → pull request → merge", with no push step. -/
theorem C5_counterexample_no_push_step :
    strContains (mentorPrompt "How do I start?" []) "push" = false := by decide

/-- C5 (amended): for every message and catalog, the prompt sent to the
external model is the one fixed template — role statement (recommend programs
from the database, explain the contribution process, getting-started
guidance) whose workflow sequence is fork → clone → branch → commit →
pull request → merge (no push step), an explicit off-topic redirect
instruction, the context block, and the verbatim user message. -/
theorem C5_prompt_template (message : String) (programs : List Program) :
    mentorPrompt message programs =
      promptPre ++ programsContext programs ++ promptMid ++ message
        ++ promptPost ∧
    strContains promptPre
      "fork → clone → branch → commit → pull request → merge" = true ∧
    strContains promptPre "Recommend programs from our database" = true ∧
    strContains promptPre "How to begin with open source" = true ∧
    strContains promptPre
      "If asked about anything else (coding, tech stacks, careers, etc.), politely redirect to open source topics"
      = true ∧
    strContains promptMid "**User Question:** " = true :=
  ⟨rfl, by decide, by decide, by decide, by decide, by decide⟩

/-- C6: a chat message that is empty or whitespace-only makes `agent_chat`
raise `HTTPException(400)` before anything else: no external model call is
attempted and the subscriber list is left unchanged. -/
theorem C6_blank_message_rejected (emails : List String) (q : AgentQuery)
    (h : pyStrip q.message = "") :
    agent_chat emails q =
      { outcome := ChatOutcome.badRequest, modelCalled := false,
        emails := emails } := by
  simp [agent_chat, h]

/-- C6 (witness): the whitespace-only message "  \t\n " with a non-empty
subscriber list. -/
theorem C6_blank_message_rejected_witness :
    pyStrip "  \t\n " = "" ∧
    agent_chat ["a@example.com"]
        { message := "  \t\n ", difficulty_filter := none } =
      { outcome := ChatOutcome.badRequest, modelCalled := false,
        emails := ["a@example.com"] } :=
  ⟨by decide, C6_blank_message_rejected ["a@example.com"]
    { message := "  \t\n ", difficulty_filter := none } (by decide)⟩

/-- C7: subscribing an email already in the subscriber list returns
"already_subscribed" and leaves the list unchanged; subscribing an absent
email appends it and returns "subscribed"; hence subscribing the same email
twice in sequence yields "subscribed" then "already_subscribed" and grows the
list by exactly one element. -/
theorem C7_subscribe_idempotent (emails : List String) (e : String) :
    (e ∈ emails → subscribe_email emails e = ("already_subscribed", emails)) ∧
    (e ∉ emails →
      subscribe_email emails e = ("subscribed", emails ++ [e]) ∧
      subscribe_email (emails ++ [e]) e =
        ("already_subscribed", emails ++ [e]) ∧
      (emails ++ [e]).length = emails.length + 1) := by
  refine ⟨fun h => ?_, fun h => ⟨?_, ?_, ?_⟩⟩
  · simp [subscribe_email, h]
  · simp [subscribe_email, h]
  · simp [subscribe_email]
  · simp

/-- C7 (witness): subscribing "x@example.com" twice over the initial list
["a@example.com"]. -/
theorem C7_subscribe_idempotent_witness :
    ("x@example.com" ∉ ["a@example.com"]) ∧
    (subscribe_email ["a@example.com"] "x@example.com" =
       ("subscribed", ["a@example.com"] ++ ["x@example.com"]) ∧
     subscribe_email (["a@example.com"] ++ ["x@example.com"]) "x@example.com" =
       ("already_subscribed", ["a@example.com"] ++ ["x@example.com"]) ∧
     (["a@example.com"] ++ ["x@example.com"]).length =
       (["a@example.com"] : List String).length + 1) :=
  ⟨by decide, (C7_subscribe_idempotent ["a@example.com"] "x@example.com").2
    (by decide)⟩

/-- C8: the context block embedded in the prompt is the newline-join of the
first 8 catalog entries in original order, each formatted by
`formatProgramLine` exactly as
"- \x7bname\x7d: \x7bdescription\x7d (Difficulty: \x7bdifficulty\x7d, Type: \x7bprogram_type\x7d, Deadline: \x7bdeadline\x7d)";
a catalog of at most 8 entries uses all of them, entries beyond the eighth
are ignored, and the empty catalog yields an empty context block while the
prompt is still produced. -/
theorem C8_context_block (programs : List Program) (message : String) :
    mentorPrompt message programs =
      promptPre
        ++ String.intercalate "\n" ((programs.take 8).map formatProgramLine)
        ++ promptMid ++ message ++ promptPost ∧
    (programs.length ≤ 8 →
      programsContext programs =
        String.intercalate "\n" (programs.map formatProgramLine)) ∧
    (programs.length = 8 → ∀ extra : List Program,
      programsContext (programs ++ extra) = programsContext programs) ∧
    programsContext [] = "" := by
  refine ⟨rfl, fun h => ?_, fun h extra => ?_, rfl⟩
  · simp [programsContext, List.take_of_length_le h]
  · simp [programsContext, List.take_append_of_le_length h.symm.le]

/-- C8 (witness): the context block for the one-entry catalog
`[sampleBeginner]`, with the formatted line evaluated. -/
theorem C8_context_block_witness :
    ([sampleBeginner] : List Program).length ≤ 8 ∧
    programsContext [sampleBeginner] =
      String.intercalate "\n" ([sampleBeginner].map formatProgramLine) ∧
    programsContext [sampleBeginner] =
      "- Sample Project: A sample (Difficulty: beginner, Type: Open Source, Deadline: Dec 31)" :=
  ⟨by decide, (C8_context_block [sampleBeginner] "hi").2.1 (by decide),
    by decide⟩

/-- C9: an omitted difficulty filter and the empty-string filter are both the
identity on a catalog of valid records: `GET /programs` returns the catalog
unchanged, same order and same length. -/
theorem C9_empty_filter_identity (ps : List Program) :
    get_programs none (ps.map rawOfProgram) = some ps ∧
    get_programs (some "") (ps.map rawOfProgram) = some ps := by
  constructor <;> simp [get_programs, validateAll_map_raw]

/-- C10: in `GET /programs` validation happens after filtering.  Appending a
record that does not match a non-empty filter (malformed or not) never
changes the result and never raises; with no filter, appending a malformed
record makes the whole request fail; and a record lacking the difficulty key
is silently excluded by any non-empty filter rather than raising. -/
theorem C10_validation_after_filtering :
    (∀ (d : String) (data : List RawProgram) (m : RawProgram),
      d ≠ "" → m.difficulty ≠ some (pyLower d) →
      get_programs (some d) (data ++ [m]) = get_programs (some d) data) ∧
    (∀ (data : List RawProgram) (m : RawProgram),
      toProgram m = none →
      get_programs none (data ++ [m]) = none) ∧
    (∀ (d : String) (data : List RawProgram) (m : RawProgram),
      d ≠ "" → m.difficulty = none →
      get_programs (some d) (data ++ [m]) = get_programs (some d) data) := by
  refine ⟨fun d data m hd hm => ?_, fun data m hm => ?_,
    fun d data m hd hm => ?_⟩
  · simp only [get_programs, if_neg hd]
    exact filterValidate_append_nonmatch (pyLower d) data m hm
  · simp only [get_programs]
    exact validateAll_append_invalid data m hm
  · simp only [get_programs, if_neg hd]
    exact filterValidate_append_nonmatch (pyLower d) data m (by simp [hm])

/-- C10 (witness): filter "beginner" over a valid record plus a malformed
record of difficulty "advanced" succeeds and ignores the malformed record;
the unfiltered request over the same data fails; a keyless record is
excluded by the filter. -/
theorem C10_validation_after_filtering_witness :
    ("beginner" ≠ "") ∧
    (badRecord.difficulty ≠ some (pyLower "beginner")) ∧
    get_programs (some "beginner") ([rawOfProgram sampleBeginner] ++ [badRecord])
      = get_programs (some "beginner") [rawOfProgram sampleBeginner] ∧
    (toProgram badRecord = none) ∧
    get_programs none ([rawOfProgram sampleBeginner] ++ [badRecord]) = none ∧
    (keylessRecord.difficulty = none) ∧
    get_programs (some "beginner")
        ([rawOfProgram sampleBeginner] ++ [keylessRecord])
      = get_programs (some "beginner") [rawOfProgram sampleBeginner] :=
  ⟨by decide, by decide,
    C10_validation_after_filtering.1 "beginner" [rawOfProgram sampleBeginner]
      badRecord (by decide) (by decide),
    by decide,
    C10_validation_after_filtering.2.1 [rawOfProgram sampleBeginner]
      badRecord (by decide),
    rfl,
    C10_validation_after_filtering.2.2 "beginner" [rawOfProgram sampleBeginner]
      keylessRecord (by decide) rfl⟩

end OpenSourceHub
